import Mathlib

/-!
Verification of the flood-detection backend (shallow embedding).

This file embeds the pure decision logic of the repository's backend in
Lean 4 and proves properties about it:

* `backend/validation.py` — payload normalization (`normalize_sensor_payload`);
* `backend/feature_engineering.py` — the rolling feature window
  (`FeatureBuffer.build_features`);
* `backend/ml_engine.py` — the guarded classifier wrapper (`predict_risk_safe`);
* `backend/processor.py` — the decision pipeline (`process_sensor_data`);
* `backend/serial_reader.py` — the best-effort actuation write (`send_alert`).

Modelling conventions: Python floats are embedded as `ℚ`, Python ints as
`ℤ`; external effectful collaborators (the trained classifier, the LLM
explanation service, the serial write and the database commit) are
parameters of type `... → Except String _`, where `Except.error m`
stands for a raised exception whose `str()` is `m`.  Wall-clock-derived
quantities (timestamp, hour, weekday, month) are passed in explicitly.
-/

/-! ## Payload normalization (`backend/validation.py`) -/

/-- The value found under one key of the raw telemetry map.
`absent` means the key is missing; `badval` is a present value on which
both `float()` and `int()` coercion fail (e.g. `None` or a non-numeric
string); `fval`/`ival` are float- and int-valued entries. -/
inductive RawField
  | absent
  | badval
  | fval (q : ℚ)
  | ival (n : ℤ)
  deriving DecidableEq, Repr

/-- A raw telemetry map restricted to the six keys the normalizer reads:
the current Arduino keys and their legacy aliases. -/
structure RawMap where
  distance_cm : RawField
  height : RawField
  rain_analog : RawField
  rain : RawField
  float_status : RawField
  float : RawField
  deriving DecidableEq, Repr

/-- `raw.get(key1, raw.get(key2))`: the first key's value when that key is
present, otherwise the second key's value. -/
def RawField.getOr (a b : RawField) : RawField :=
  match a with
  | .absent => b
  | x => x

/-- `_to_float`: coerce to float, `none` on failure (source `_to_float`). -/
def toFloat : RawField → Option ℚ
  | .absent => none
  | .badval => none
  | .fval q => some q
  | .ival n => some (n : ℚ)

/-- `_to_int`: coerce to int, `none` on failure (source `_to_int`).
Python `int()` on a float truncates toward zero. -/
def toInt : RawField → Option ℤ
  | .absent => none
  | .badval => none
  | .fval q => some (q.num.sign * ((q.num.natAbs / q.den : ℕ) : ℤ))
  | .ival n => some n

/-- The normalized payload dict: keys `distance_cm`, `rain_analog`,
`float_status`. -/
@[ext]
structure Payload where
  distance_cm : ℚ
  rain_analog : ℤ
  float_status : ℤ
  deriving DecidableEq, Repr

/-- Result of normalization (source dataclass `NormalizedPayload`). -/
structure NormalizedPayload where
  payload : Payload
  errors : List String
  warnings : List String
  deriving DecidableEq, Repr

/-- Body of `normalize_sensor_payload` after the three field lookups,
mirroring the source line by line: distance missing → error
`missing_distance` and sentinel `-1.0`; negative distance → error
`invalid_distance`, value propagated unmodified; rain missing → error
`missing_rain`, default 0; rain clamped into `[0, 1023]` with
`rain_clamped_low` / `rain_clamped_high` warnings; float status missing →
error `missing_float_status`, default 0; float status outside `{0, 1}` →
warning `float_status_coerced` and coercion by truthiness. -/
def normalize_core (distance0 : Option ℚ) (rain0 : Option ℤ) (float0 : Option ℤ) :
    NormalizedPayload :=
  let dres : List String × ℚ :=
    match distance0 with
    | none => (["missing_distance"], -1)
    | some d => if d < 0 then (["invalid_distance"], d) else ([], d)
  let rres : List String × ℤ :=
    match rain0 with
    | none => (["missing_rain"], 0)
    | some r => ([], r)
  let rlow : List String × ℤ :=
    if rres.2 < 0 then (["rain_clamped_low"], 0) else ([], rres.2)
  let rhigh : List String × ℤ :=
    if rlow.2 > 1023 then (["rain_clamped_high"], 1023) else ([], rlow.2)
  let fres : List String × ℤ :=
    match float0 with
    | none => (["missing_float_status"], 0)
    | some f => ([], f)
  let fcoerce : List String × ℤ :=
    if fres.2 = 0 ∨ fres.2 = 1 then ([], fres.2)
    else (["float_status_coerced"], if fres.2 ≠ 0 then 1 else 0)
  { payload :=
      { distance_cm := dres.2
        rain_analog := rhigh.2
        float_status := fcoerce.2 }
    errors := dres.1 ++ rres.1 ++ fres.1
    warnings := rlow.1 ++ rhigh.1 ++ fcoerce.1 }

/-- `normalize_sensor_payload` (source `backend/validation.py`): resolve
the current/legacy key pairs, coerce, then normalize. -/
def normalize_sensor_payload (raw : RawMap) : NormalizedPayload :=
  normalize_core
    (toFloat (raw.distance_cm.getOr raw.height))
    (toInt (raw.rain_analog.getOr raw.rain))
    (toInt (raw.float_status.getOr raw.float))

/-- The normalized rain value always lands in `[0, 1023]`. -/
lemma normalize_core_rain_mem (d : Option ℚ) (r : Option ℤ) (f : Option ℤ) :
    0 ≤ (normalize_core d r f).payload.rain_analog ∧
      (normalize_core d r f).payload.rain_analog ≤ 1023 := by
  unfold normalize_core
  rcases r with _ | r <;> dsimp only <;> split_ifs <;> simp_all <;> omega

/-- The normalized float status is always 0 or 1. -/
lemma normalize_core_float_mem (d : Option ℚ) (r : Option ℤ) (f : Option ℤ) :
    (normalize_core d r f).payload.float_status = 0 ∨
      (normalize_core d r f).payload.float_status = 1 := by
  unfold normalize_core
  rcases f with _ | f <;> dsimp only <;> split_ifs <;> simp_all

/-- The normalized distance is the coerced input when present (negative
values propagate unmodified), and the sentinel `-1.0` when missing. -/
lemma normalize_core_distance_eq (d : Option ℚ) (r : Option ℤ) (f : Option ℤ) :
    (normalize_core d r f).payload.distance_cm = d.getD (-1) := by
  unfold normalize_core
  rcases d with _ | d
  · rfl
  · dsimp only
    split_ifs <;> rfl

/-- In-range rain passes through the clamps unchanged. -/
lemma normalize_core_rain_stable (d : Option ℚ) (f : Option ℤ) (r : ℤ)
    (h0 : 0 ≤ r) (h1 : r ≤ 1023) :
    (normalize_core d (some r) f).payload.rain_analog = r := by
  unfold normalize_core
  dsimp only
  split_ifs <;> simp_all <;> omega

/-- A float status already in `{0, 1}` is not coerced. -/
lemma normalize_core_float_stable (d : Option ℚ) (r : Option ℤ) (f : ℤ)
    (hf : f = 0 ∨ f = 1) :
    (normalize_core d r (some f)).payload.float_status = f := by
  unfold normalize_core
  dsimp only
  split_ifs <;> simp_all

/-- Negative rain is clamped to 0 with warning `rain_clamped_low`. -/
lemma normalize_core_rain_low (d : Option ℚ) (f : Option ℤ) (r : ℤ) (h : r < 0) :
    (normalize_core d (some r) f).payload.rain_analog = 0 ∧
      "rain_clamped_low" ∈ (normalize_core d (some r) f).warnings := by
  unfold normalize_core
  dsimp only
  split_ifs <;> simp_all <;> omega

/-- Rain above 1023 is clamped to 1023 with warning `rain_clamped_high`. -/
lemma normalize_core_rain_high (d : Option ℚ) (f : Option ℤ) (r : ℤ) (h : 1023 < r) :
    (normalize_core d (some r) f).payload.rain_analog = 1023 ∧
      "rain_clamped_high" ∈ (normalize_core d (some r) f).warnings := by
  unfold normalize_core
  dsimp only
  split_ifs <;> simp_all <;> omega

/-- Missing rain yields error `missing_rain` and default value 0. -/
lemma normalize_core_rain_missing (d : Option ℚ) (f : Option ℤ) :
    "missing_rain" ∈ (normalize_core d none f).errors ∧
      (normalize_core d none f).payload.rain_analog = 0 := by
  unfold normalize_core
  dsimp only
  split_ifs <;> simp_all

/-- C8: for every raw payload with a non-missing rain value outside
`[0, 1023]`, `normalize_sensor_payload` clamps the normalized
`rain_analog` into `[0, 1023]` (to exactly 0 resp. 1023) and emits
warning `rain_clamped_low` for negative input resp. `rain_clamped_high`
for input above 1023; input 9999 normalizes to 1023 with warning
`rain_clamped_high`; a missing rain value instead yields error
`missing_rain` and defaults to 0. -/
theorem rain_clamping_spec :
    (∀ (raw : RawMap) (r : ℤ), toInt (raw.rain_analog.getOr raw.rain) = some r →
      (r < 0 → (normalize_sensor_payload raw).payload.rain_analog = 0 ∧
        "rain_clamped_low" ∈ (normalize_sensor_payload raw).warnings) ∧
      (1023 < r → (normalize_sensor_payload raw).payload.rain_analog = 1023 ∧
        "rain_clamped_high" ∈ (normalize_sensor_payload raw).warnings)) ∧
    (∀ raw : RawMap, toInt (raw.rain_analog.getOr raw.rain) = none →
      "missing_rain" ∈ (normalize_sensor_payload raw).errors ∧
      (normalize_sensor_payload raw).payload.rain_analog = 0) ∧
    ((normalize_sensor_payload
        ⟨.absent, .absent, .ival 9999, .absent, .absent, .absent⟩).payload.rain_analog = 1023 ∧
      "rain_clamped_high" ∈ (normalize_sensor_payload
        ⟨.absent, .absent, .ival 9999, .absent, .absent, .absent⟩).warnings) := by
  refine ⟨fun raw r h => ?_, fun raw h => ?_, by decide⟩
  · unfold normalize_sensor_payload
    rw [h]
    exact ⟨normalize_core_rain_low _ _ r, normalize_core_rain_high _ _ r⟩
  · unfold normalize_sensor_payload
    rw [h]
    exact normalize_core_rain_missing _ _

/-- Witness for C8: concrete clamp-low input (legacy key `rain`, value
-5) and concrete missing-rain input. -/
theorem rain_clamping_spec_witness :
    ((normalize_sensor_payload
        ⟨.absent, .absent, .absent, .ival (-5), .absent, .absent⟩).payload.rain_analog = 0 ∧
      "rain_clamped_low" ∈ (normalize_sensor_payload
        ⟨.absent, .absent, .absent, .ival (-5), .absent, .absent⟩).warnings) ∧
    ("missing_rain" ∈ (normalize_sensor_payload
        ⟨.absent, .absent, .absent, .absent, .absent, .absent⟩).errors ∧
      (normalize_sensor_payload
        ⟨.absent, .absent, .absent, .absent, .absent, .absent⟩).payload.rain_analog = 0) :=
  ⟨(rain_clamping_spec.1 ⟨.absent, .absent, .absent, .ival (-5), .absent, .absent⟩
      (-5) rfl).1 (by decide),
    rain_clamping_spec.2.1 ⟨.absent, .absent, .absent, .absent, .absent, .absent⟩ rfl⟩

/-- Re-embed a normalized payload as a raw map under the current keys,
as `process_sensor_data`'s stored record or a re-ingested line would
present it: the distance as a float, rain and float status as ints. -/
def payload_to_raw (p : Payload) : RawMap :=
  { distance_cm := .fval p.distance_cm
    height := .absent
    rain_analog := .ival p.rain_analog
    rain := .absent
    float_status := .ival p.float_status
    float := .absent }

/-- C10: `normalize_sensor_payload` is idempotent at the payload level:
re-normalizing the payload produced by a first pass yields the identical
payload, including when the first pass produced the `-1.0`
missing-distance sentinel or propagated a negative distance. -/
theorem normalize_idempotent (raw : RawMap) :
    (normalize_sensor_payload
        (payload_to_raw (normalize_sensor_payload raw).payload)).payload
      = (normalize_sensor_payload raw).payload := by
  have hmem := normalize_core_rain_mem
    (toFloat (raw.distance_cm.getOr raw.height))
    (toInt (raw.rain_analog.getOr raw.rain))
    (toInt (raw.float_status.getOr raw.float))
  have hfs := normalize_core_float_mem
    (toFloat (raw.distance_cm.getOr raw.height))
    (toInt (raw.rain_analog.getOr raw.rain))
    (toInt (raw.float_status.getOr raw.float))
  ext
  · exact normalize_core_distance_eq _ _ _
  · exact normalize_core_rain_stable _ _ _ hmem.1 hmem.2
  · exact normalize_core_float_stable _ _ _ hfs

/-! ## Feature window (`backend/feature_engineering.py`) -/

/-- Source dataclass `_Sample`. -/
structure Sample where
  ts : ℚ
  distance_cm : ℚ
  rain_analog : ℚ
  float_status : ℤ
  deriving DecidableEq, Repr

/-- The `FeatureBuffer`'s mutable state (spec name `WindowState`): the
bounded deque of retained samples and the optional rain-episode start
timestamp. -/
structure WindowState where
  samples : List Sample
  rain_start_ts : Option ℚ
  deriving DecidableEq, Repr

/-- The wall-clock data `build_features` reads at call time:
`datetime.now().timestamp()` plus the calendar fields derived from it by
`datetime.fromtimestamp`. -/
structure Clock where
  ts : ℚ
  hour : ℤ
  weekday : ℤ
  month : ℤ
  deriving DecidableEq, Repr

/-- `collections.deque(maxlen=n).append`: append on the right, dropping
from the left when the deque is full. -/
def deque_append (maxlen : ℕ) (xs : List Sample) (x : Sample) : List Sample :=
  let ys := xs ++ [x]
  ys.drop (ys.length - maxlen)

/-- Source `FeatureBuffer._window_from`: the samples whose timestamp is
at least `now_ts - seconds`. -/
def window_from (samples : List Sample) (seconds : ℚ) (now_ts : ℚ) : List Sample :=
  samples.filter (fun s => now_ts - seconds ≤ s.ts)

/-- Source `_mean`: 0.0 on an empty list. -/
def _mean (values : List ℚ) : ℚ :=
  if values = [] then 0 else values.sum / values.length

/-- The sample variance computed inside source `_std` (`var`): 0.0 for
fewer than 2 values, else `Σ (v - m)² / (n - 1)`.  The source returns
`var ** 0.5`; we record the variance itself to stay in `ℚ` (the square
root is irrational in general, and no claim depends on this field). -/
def _var (values : List ℚ) : ℚ :=
  if values.length < 2 then 0
  else
    let m := values.sum / values.length
    (values.map (fun v => (v - m) ^ 2)).sum / ((values.length : ℚ) - 1)

/-- The feature dict returned by `FeatureBuffer.build_features`.
`distance_rolling_var_3min` holds the variance whose square root the
source stores under `distance_rolling_std_3min` (see `_var`). -/
structure FeatureVec where
  distance_cm : ℚ
  rain_analog : ℚ
  float_status : ℚ
  rise_rate_cm_per_min : ℚ
  rain_trend_5min : ℚ
  distance_rolling_mean_3min : ℚ
  distance_rolling_var_3min : ℚ
  cumulative_rain_30min : ℚ
  time_since_rain_start : ℚ
  emergency_flag : ℚ
  season_flag : ℚ
  hour_of_day : ℚ
  day_of_week : ℚ
  month : ℚ
  deriving DecidableEq, Repr

/-- `FeatureBuffer.build_features` (source
`backend/feature_engineering.py`), with the object's mutable state made
explicit: takes the state before the call and returns the feature dict
together with the state after the call.  The raw dict's three fields are
passed directly (the source coerces them with `float()` / `int()`).
The internal lock makes compute + mutate atomic; sequential state
passing models exactly that serialized behaviour. -/
def build_features (st : WindowState) (clk : Clock)
    (distance_cm : ℚ) (rain_analog : ℚ) (float_status : ℤ)
    (update_state : Bool) : FeatureVec × WindowState :=
  let now_ts := clk.ts
  let current : Sample :=
    { ts := now_ts, distance_cm := distance_cm, rain_analog := rain_analog
      float_status := float_status }
  -- Snapshot state so we can compute without mutating.
  let prev := st.samples.getLast?
  let samples_snapshot := st.samples
  let rain_start_ts := st.rain_start_ts
  let samples_for_calc :=
    if update_state then deque_append (35 * 60) st.samples current
    else samples_snapshot ++ [current]
  -- Rolling distance features (3 minutes).
  let win_3m := window_from samples_for_calc (3 * 60) now_ts
  let dist_3m := win_3m.map Sample.distance_cm
  let distance_rolling_mean_3min := _mean dist_3m
  let distance_rolling_var_3min := _var dist_3m
  -- Rise rate (cm/min); positive means water is rising.
  let rise_rate_cm_per_min : ℚ :=
    match prev with
    | none => 0
    | some p => (p.distance_cm - distance_cm) / max ((now_ts - p.ts) / 60) (1 / 1000000)
  -- Rain trend (5 minutes).
  let win_5m := window_from samples_for_calc (5 * 60) now_ts
  let rain_trend_5min := _mean (win_5m.map Sample.rain_analog)
  -- Cumulative rain (30 minutes): trapezoidal integration of rain/100.
  let win_30m := window_from samples_for_calc (30 * 60) now_ts
  let cumulative_rain_30min : ℚ :=
    if 2 ≤ win_30m.length then
      (List.zip win_30m win_30m.tail).foldl
        (fun acc ab =>
          acc + ((ab.1.rain_analog + ab.2.rain_analog) / 2) / 100 * max ((ab.2.ts - ab.1.ts) / 60) 0)
        0
    else 0
  -- Time since rain start.
  let rain_present := 500 ≤ rain_analog
  let rain_start_ts1 := if rain_present ∧ rain_start_ts = none then some now_ts else rain_start_ts
  let rain_start_ts2 := if ¬ rain_present then none else rain_start_ts1
  let time_since_rain_start : ℚ :=
    match rain_start_ts2 with
    | none => 0
    | some t0 => (now_ts - t0) / 60
  let emergency_flag : ℚ := if float_status = 1 then 1 else 0
  let season_flag : ℚ :=
    if clk.month = 6 ∨ clk.month = 7 ∨ clk.month = 8 ∨ clk.month = 9 then 1 else 0
  ({ distance_cm := distance_cm
     rain_analog := rain_analog
     float_status := (float_status : ℚ)
     rise_rate_cm_per_min := rise_rate_cm_per_min
     rain_trend_5min := rain_trend_5min
     distance_rolling_mean_3min := distance_rolling_mean_3min
     distance_rolling_var_3min := distance_rolling_var_3min
     cumulative_rain_30min := cumulative_rain_30min
     time_since_rain_start := time_since_rain_start
     emergency_flag := emergency_flag
     season_flag := season_flag
     hour_of_day := (clk.hour : ℚ)
     day_of_week := (clk.weekday : ℚ)
     month := (clk.month : ℚ) },
   { samples := if update_state then deque_append (35 * 60) st.samples current else st.samples
     rain_start_ts := if update_state then rain_start_ts2 else st.rain_start_ts })

/-- C6: `build_features` with `update_state = False` leaves the window
state entirely unchanged — the retained sample sequence and the
rain-episode start timestamp are identical before and after the call —
so any subsequent call behaves exactly as if the read-only call had
never happened (and, `build_features` being a pure function of state and
inputs, repeated calls with the same inputs and state return the same
result). -/
theorem build_features_no_persist_frame :
    (∀ (st : WindowState) (clk : Clock) (d r : ℚ) (f : ℤ),
      (build_features st clk d r f false).2 = st) ∧
    (∀ (st : WindowState) (clk clk2 : Clock) (d r d2 r2 : ℚ) (f f2 : ℤ) (b2 : Bool),
      build_features ((build_features st clk d r f false).2) clk2 d2 r2 f2 b2
        = build_features st clk2 d2 r2 f2 b2) :=
  ⟨fun _ _ _ _ _ => rfl, fun _ _ _ _ _ _ _ _ _ _ => rfl⟩

/-- C7: for a non-empty window, `rise_rate_cm_per_min` equals
`(previous_distance - current_distance) / elapsed_minutes` where
`previous` is the last sample retained in the state before any mutation
by this call (regardless of the persist flag) and elapsed minutes are
floored at the epsilon `1e-6`; the result is positive exactly when the
new distance is smaller than the previous one; for an empty window the
rise rate is 0.0. -/
theorem rise_rate_spec :
    (∀ (st : WindowState) (clk : Clock) (d r : ℚ) (f : ℤ) (b : Bool),
      st.samples = [] → (build_features st clk d r f b).1.rise_rate_cm_per_min = 0) ∧
    (∀ (st : WindowState) (clk : Clock) (d r : ℚ) (f : ℤ) (b : Bool) (p : Sample),
      st.samples.getLast? = some p →
      (build_features st clk d r f b).1.rise_rate_cm_per_min
        = (p.distance_cm - d) / max ((clk.ts - p.ts) / 60) (1 / 1000000) ∧
      (0 < (build_features st clk d r f b).1.rise_rate_cm_per_min ↔ d < p.distance_cm)) := by
  constructor
  · intro st clk d r f b h
    simp [build_features, h]
  · intro st clk d r f b p h
    have heq : (build_features st clk d r f b).1.rise_rate_cm_per_min
        = (p.distance_cm - d) / max ((clk.ts - p.ts) / 60) (1 / 1000000) := by
      simp only [build_features, h]
    have hdt : (0 : ℚ) < max ((clk.ts - p.ts) / 60) (1 / 1000000) :=
      lt_of_lt_of_le (by norm_num) (le_max_right _ _)
    refine ⟨heq, ?_⟩
    rw [heq]
    constructor
    · intro h0
      rcases div_pos_iff.mp h0 with ⟨h1, _⟩ | ⟨_, h2⟩
      · linarith
      · linarith
    · intro h0
      exact div_pos (by linarith) hdt

/-- Witness for C7: one prior sample at distance 50 and time 0, new
sample at distance 40 one minute later, yields rise rate +10 cm/min. -/
theorem rise_rate_spec_witness :
    (build_features ⟨[⟨0, 50, 0, 0⟩], none⟩ ⟨60, 0, 0, 1⟩
        40 0 0 true).1.rise_rate_cm_per_min = 10 ∧
    (0 < (build_features ⟨[⟨0, 50, 0, 0⟩], none⟩ ⟨60, 0, 0, 1⟩
        40 0 0 true).1.rise_rate_cm_per_min ↔ (40 : ℚ) < 50) := by
  have h := rise_rate_spec.2 ⟨[⟨0, 50, 0, 0⟩], none⟩ ⟨60, 0, 0, 1⟩
    40 0 0 true ⟨0, 50, 0, 0⟩ rfl
  refine ⟨?_, h.2⟩
  rw [h.1]
  rw [show ((60 : ℚ) - 0) / 60 = 1 by norm_num,
    show max (1 : ℚ) (1 / 1000000) = 1 from max_eq_left (by norm_num)]
  norm_num

/-- C2 (evidence of the code/spec divergence): `build_features` does
not reject a negative distance.  Called on an empty window with
`distance_cm = -1.0` (the input of the repository's own test
`test_build_features_rejects_invalid_distance`, which expects a
`ValueError`), it admits the sample into the window and returns a
feature dict computed over it. -/
theorem build_features_admits_negative_distance :
    ((build_features ⟨[], none⟩ ⟨0, 0, 0, 1⟩ (-1) 0 0 true).2).samples
        = [⟨0, -1, 0, 0⟩] ∧
      (build_features ⟨[], none⟩ ⟨0, 0, 0, 1⟩ (-1) 0 0 true).1.distance_cm = -1 ∧
      (build_features ⟨[], none⟩ ⟨0, 0, 0, 1⟩
          (-1) 0 0 true).1.distance_rolling_mean_3min = -1 :=
  ⟨rfl, rfl, by simp [build_features, window_from, deque_append, _mean, List.filter]⟩

/-! ## Guarded classifier wrapper (`backend/ml_engine.py`) -/

/-- `predict_risk_safe`: call the classifier (here an explicit
parameter standing for `predict_risk`, whose failure with exception
text `m` is `Except.error m`); on success return
`(risk, probability, None)`, on any exception return
`(None, None, str(e))`. -/
def predict_risk_safe (predict : Payload → Except String (ℤ × ℚ)) (p : Payload) :
    Option ℤ × Option ℚ × Option String :=
  match predict p with
  | .ok (r, pr) => (some r, some pr, none)
  | .error e => (none, none, some e)

/-! ## Decision pipeline (`backend/processor.py`) -/

/-- The row handed to `db.add` (source model `SensorReading`, the
columns written by `process_sensor_data`). -/
structure SensorRecord where
  distance_cm : ℚ
  rain_analog : ℤ
  float_status : ℤ
  predicted_risk : Option ℤ
  risk_probability : Option ℚ
  explanation : Option String
  deriving DecidableEq, Repr

/-- The observable decisions of one `process_sensor_data` run: whether
the classifier was consulted, the risk/probability/error locals, the
explanation, the actuation commands passed to `send_alert` (in order),
and the record constructed for persistence. -/
structure Outcome where
  classifier_called : Bool
  risk : Option ℤ
  prob : Option ℚ
  err : Option String
  explanation : Option String
  alerts : List String
  record : SensorRecord
  deriving DecidableEq, Repr

/-- The exception-free part of `process_sensor_data`
(`backend/processor.py` lines 20–60): normalization, the emergency
override / payload-error guard / classifier cascade, the explanation
attempt (its own `try`, failure leaves the explanation unset), the
actuation decision, and the construction of the row to store.  `llm`
stands for `generate_explanation`. -/
def decide_stage (predict : Payload → Except String (ℤ × ℚ))
    (llm : Payload → ℤ → ℚ → Except String String) (data : RawMap) : Outcome :=
  let normalized := normalize_sensor_payload data
  let payload := normalized.payload
  -- Safety override: if float switch is triggered, treat as high risk regardless of ML.
  let emergency := payload.float_status = 1
  let rpe : Bool × Option ℤ × Option ℚ × Option String :=
    if emergency then (false, some 2, some 1, some "emergency_override")
    else if normalized.errors ≠ [] then
      (false, none, none,
        some ("payload_errors=" ++ String.intercalate "," normalized.errors))
    else
      let (r, p, e) := predict_risk_safe predict payload
      (true, r, p, e)
  let ea : Option String × List String :=
    match rpe.2.1, rpe.2.2.1 with
    | some r, some p =>
      if 2 ≤ r then
        ((match llm payload r p with
          | .ok text => some text
          | .error _ => none), ["ALERT_ON"])
      else (none, ["ALERT_OFF"])
    | _, _ => (none, ["ALERT_OFF"])
  { classifier_called := rpe.1
    risk := rpe.2.1
    prob := rpe.2.2.1
    err := rpe.2.2.2
    explanation := ea.1
    alerts := ea.2
    record :=
      { distance_cm := payload.distance_cm
        rain_analog := payload.rain_analog
        float_status := payload.float_status
        predicted_risk := rpe.2.1
        risk_probability := rpe.2.2.1
        explanation := ea.1 } }

/-- Result of a whole `process_sensor_data` call: the decisions made,
the id returned by a successful commit, and the exception text consumed
by the top-level `except` handler, if it fired. -/
structure PipelineResult where
  outcome : Outcome
  record_id : Option ℕ
  caught : Option String
  deriving DecidableEq, Repr

/-- Issue each command through the serial write; the first raised
exception propagates. -/
def sendAll (send : String → Except String Unit) : List String → Except String Unit
  | [] => .ok ()
  | c :: rest =>
    match send c with
    | .ok _ => sendAll send rest
    | .error e => .error e

/-- `process_sensor_data` (source `backend/processor.py`).  `send` is
`serial_reader.send_alert` and `db_commit` is `db.add` + `db.commit`
returning the new row id; `Except.error` models a raised exception.  An
`Except.error` result would mean an exception propagated to the caller;
every failure continuation instead returns `Except.ok` with `caught`
set, mirroring the top-level `except Exception` handler that logs and
returns. -/
def process_sensor_data (predict : Payload → Except String (ℤ × ℚ))
    (llm : Payload → ℤ → ℚ → Except String String)
    (send : String → Except String Unit)
    (db_commit : SensorRecord → Except String ℕ)
    (data : RawMap) : Except String PipelineResult :=
  let o := decide_stage predict llm data
  match sendAll send o.alerts with
  | .error e => .ok ⟨o, none, some e⟩   -- caught by the top-level handler
  | .ok _ =>
    match db_commit o.record with
    | .ok rid => .ok ⟨o, some rid, none⟩
    | .error e => .ok ⟨o, none, some e⟩ -- caught by the top-level handler

/-- Every run completes normally and its decisions are those of
`decide_stage`. -/
lemma process_sensor_data_ok (predict : Payload → Except String (ℤ × ℚ))
    (llm : Payload → ℤ → ℚ → Except String String)
    (send : String → Except String Unit)
    (db_commit : SensorRecord → Except String ℕ) (data : RawMap) :
    ∃ res : PipelineResult,
      process_sensor_data predict llm send db_commit data = .ok res ∧
      res.outcome = decide_stage predict llm data := by
  unfold process_sensor_data
  dsimp only
  rcases sendAll send (decide_stage predict llm data).alerts with e | u
  · exact ⟨_, rfl, rfl⟩
  · rcases db_commit (decide_stage predict llm data).record with e | rid
    · exact ⟨_, rfl, rfl⟩
    · exact ⟨_, rfl, rfl⟩

/-- When the float switch is set, `decide_stage` takes the emergency
branch: override values, classifier untouched. -/
lemma decide_stage_emergency (predict : Payload → Except String (ℤ × ℚ))
    (llm : Payload → ℤ → ℚ → Except String String) (data : RawMap)
    (h : (normalize_sensor_payload data).payload.float_status = 1) :
    (decide_stage predict llm data).classifier_called = false ∧
      (decide_stage predict llm data).risk = some 2 ∧
      (decide_stage predict llm data).prob = some 1 ∧
      (decide_stage predict llm data).err = some "emergency_override" ∧
      (decide_stage predict llm data).record.predicted_risk = some 2 ∧
      (decide_stage predict llm data).record.risk_probability = some 1 := by
  unfold decide_stage
  simp [h]

/-- When the float switch is not set, normalization is clean, and the
classifier fails with message `m`, `decide_stage` records the inference
error and leaves risk/probability unset; the persisted row carries the
normalized fields with `predicted_risk`/`risk_probability`/`explanation`
unset. -/
lemma decide_stage_classifier_fail (predict : Payload → Except String (ℤ × ℚ))
    (llm : Payload → ℤ → ℚ → Except String String) (data : RawMap) (m : String)
    (hfail : predict (normalize_sensor_payload data).payload = .error m)
    (hfs : (normalize_sensor_payload data).payload.float_status ≠ 1)
    (herr : (normalize_sensor_payload data).errors = []) :
    (decide_stage predict llm data).classifier_called = true ∧
      (decide_stage predict llm data).risk = none ∧
      (decide_stage predict llm data).prob = none ∧
      (decide_stage predict llm data).err = some m ∧
      (decide_stage predict llm data).record =
        { distance_cm := (normalize_sensor_payload data).payload.distance_cm
          rain_analog := (normalize_sensor_payload data).payload.rain_analog
          float_status := (normalize_sensor_payload data).payload.float_status
          predicted_risk := none
          risk_probability := none
          explanation := none } := by
  unfold decide_stage
  simp [predict_risk_safe, hfail, hfs, herr]

/-- The actuation command list of one run, as a function of the risk
and probability that the run determined. -/
lemma decide_stage_alerts (predict : Payload → Except String (ℤ × ℚ))
    (llm : Payload → ℤ → ℚ → Except String String) (data : RawMap) :
    (decide_stage predict llm data).alerts =
      match (decide_stage predict llm data).risk, (decide_stage predict llm data).prob with
      | some r, some _ => if 2 ≤ r then ["ALERT_ON"] else ["ALERT_OFF"]
      | _, _ => ["ALERT_OFF"] := by
  unfold decide_stage
  dsimp only
  split_ifs with h1 h2
  · norm_num
  · rfl
  · rcases hp : predict_risk_safe predict (normalize_sensor_payload data).payload
      with ⟨r, p, e⟩
    dsimp only
    rcases r with _ | r <;> rcases p with _ | p
    · rfl
    · rfl
    · rfl
    · dsimp only
      split_ifs <;> rfl

/-- C3: for every raw input and every behaviour of the external
collaborators (classifier, explanation service, serial write, database
commit — each of which may raise), `process_sensor_data` returns
normally: no exception propagates to the caller, so one bad record
never interrupts ingestion of subsequent lines. -/
theorem no_exception_propagates (predict : Payload → Except String (ℤ × ℚ))
    (llm : Payload → ℤ → ℚ → Except String String)
    (send : String → Except String Unit)
    (db_commit : SensorRecord → Except String ℕ) (data : RawMap) :
    ∃ res : PipelineResult,
      process_sensor_data predict llm send db_commit data = Except.ok res := by
  obtain ⟨res, heq, -⟩ := process_sensor_data_ok predict llm send db_commit data
  exact ⟨res, heq⟩

/-- C1: whenever the normalized float status equals 1,
`process_sensor_data` assigns `risk_class = 2` and `probability = 1.0`,
marks the source as the emergency override, and never consults the
classifier — whatever the classifier, explanation service, serial write
or database do, and in particular even when normalization reported hard
errors on the distance or rain fields (the hypothesis does not restrict
`errors`). -/
theorem emergency_override_spec (predict : Payload → Except String (ℤ × ℚ))
    (llm : Payload → ℤ → ℚ → Except String String)
    (send : String → Except String Unit)
    (db_commit : SensorRecord → Except String ℕ) (data : RawMap)
    (h : (normalize_sensor_payload data).payload.float_status = 1) :
    ∃ res : PipelineResult,
      process_sensor_data predict llm send db_commit data = Except.ok res ∧
      res.outcome.classifier_called = false ∧
      res.outcome.risk = some 2 ∧
      res.outcome.prob = some 1 ∧
      res.outcome.err = some "emergency_override" ∧
      res.outcome.record.predicted_risk = some 2 ∧
      res.outcome.record.risk_probability = some 1 := by
  obtain ⟨res, heq, hout⟩ := process_sensor_data_ok predict llm send db_commit data
  obtain ⟨h1, h2, h3, h4, h5, h6⟩ := decide_stage_emergency predict llm data h
  exact ⟨res, heq, by rw [hout]; exact h1, by rw [hout]; exact h2, by rw [hout]; exact h3,
    by rw [hout]; exact h4, by rw [hout]; exact h5, by rw [hout]; exact h6⟩

/-- C4: every invocation of `process_sensor_data` issues exactly one
actuation command: `ALERT_ON` exactly when risk and probability are both
known and the risk class is ≥ 2, and `ALERT_OFF` in every other case —
including when risk is indeterminate (classifier failure or payload
errors). -/
theorem actuation_exactly_one (predict : Payload → Except String (ℤ × ℚ))
    (llm : Payload → ℤ → ℚ → Except String String)
    (send : String → Except String Unit)
    (db_commit : SensorRecord → Except String ℕ) (data : RawMap) :
    ∃ res : PipelineResult,
      process_sensor_data predict llm send db_commit data = Except.ok res ∧
      res.outcome.alerts.length = 1 ∧
      (res.outcome.alerts = ["ALERT_ON"] ↔
        ∃ r p, res.outcome.risk = some r ∧ res.outcome.prob = some p ∧ 2 ≤ r) ∧
      (res.outcome.alerts = ["ALERT_ON"] ∨ res.outcome.alerts = ["ALERT_OFF"]) := by
  obtain ⟨res, heq, hout⟩ := process_sensor_data_ok predict llm send db_commit data
  have halerts := decide_stage_alerts predict llm data
  rw [← hout] at halerts
  refine ⟨res, heq, ?_, ?_, ?_⟩
  · rw [halerts]
    rcases res.outcome.risk with _ | r
    · rfl
    · rcases res.outcome.prob with _ | p
      · rfl
      · dsimp only
        split_ifs <;> rfl
  · rcases hr : res.outcome.risk with _ | r <;>
      rcases hp : res.outcome.prob with _ | p <;> rw [hr, hp] at halerts
    · rw [halerts]
      simp
    · rw [halerts]
      simp
    · rw [halerts]
      simp
    · rw [halerts]
      dsimp only
      split_ifs with h2
      · simp [h2]
      · simp [h2]
  · rw [halerts]
    rcases res.outcome.risk with _ | r
    · right
      rfl
    · rcases res.outcome.prob with _ | p
      · right
        rfl
      · dsimp only
        split_ifs
        · left
          rfl
        · right
          rfl

/-- C5 (amended): whenever the classifier raises with exception text
`m` on a clean, non-emergency sample, `predict_risk_safe` returns
`(None, None, m)` instead of propagating — the error slot is set (to
`str(e)`, which is non-empty whenever the exception carries a message,
but is not guaranteed non-empty) — and `process_sensor_data` still
builds and persists a record carrying the normalized raw fields with
`predicted_risk` and `risk_probability` unset. -/
theorem classifier_failure_outcome (predict : Payload → Except String (ℤ × ℚ))
    (llm : Payload → ℤ → ℚ → Except String String)
    (send : String → Except String Unit)
    (db_commit : SensorRecord → Except String ℕ) (data : RawMap) (m : String)
    (hfail : predict (normalize_sensor_payload data).payload = .error m)
    (hfs : (normalize_sensor_payload data).payload.float_status ≠ 1)
    (herr : (normalize_sensor_payload data).errors = []) :
    predict_risk_safe predict (normalize_sensor_payload data).payload
        = (none, none, some m) ∧
    ∃ res : PipelineResult,
      process_sensor_data predict llm send db_commit data = Except.ok res ∧
      res.outcome.classifier_called = true ∧
      res.outcome.risk = none ∧
      res.outcome.prob = none ∧
      res.outcome.err = some m ∧
      res.outcome.record =
        { distance_cm := (normalize_sensor_payload data).payload.distance_cm
          rain_analog := (normalize_sensor_payload data).payload.rain_analog
          float_status := (normalize_sensor_payload data).payload.float_status
          predicted_risk := none
          risk_probability := none
          explanation := none } := by
  obtain ⟨res, heq, hout⟩ := process_sensor_data_ok predict llm send db_commit data
  obtain ⟨h1, h2, h3, h4, h5⟩ :=
    decide_stage_classifier_fail predict llm data m hfail hfs herr
  refine ⟨by unfold predict_risk_safe; rw [hfail], res, heq, ?_, ?_, ?_, ?_, ?_⟩ <;>
    rw [hout]
  · exact h1
  · exact h2
  · exact h3
  · exact h4
  · exact h5

/-- C5 counterexample to the claim as stated: `str(e)` of a Python
exception can be the empty string (e.g. `Exception()`), in which case
`predict_risk_safe` returns an *empty* error string — the third slot is
set but not non-empty. -/
theorem classifier_failure_empty_message :
    predict_risk_safe (fun _ => Except.error "") ⟨10, 100, 0⟩ = (none, none, some "") ∧
      ("" : String).length = 0 :=
  ⟨rfl, rfl⟩

/-! Concrete collaborators and inputs used by the witnesses. -/

/-- A classifier whose every call raises (model file missing). -/
def predictUnavailable : Payload → Except String (ℤ × ℚ) :=
  fun _ => .error "model unavailable"

/-- An explanation service whose every call raises. -/
def llmDown : Payload → ℤ → ℚ → Except String String :=
  fun _ _ _ => .error "llm unreachable"

/-- A serial write that always succeeds. -/
def sendOk : String → Except String Unit := fun _ => .ok ()

/-- A database commit that always succeeds with row id 1. -/
def dbOk : SensorRecord → Except String ℕ := fun _ => .ok 1

/-- Raw line `{"float_status": 1}`: float switch set, distance and rain
missing (so normalization reports hard errors on both). -/
def rawEmergency : RawMap :=
  ⟨.absent, .absent, .absent, .absent, .ival 1, .absent⟩

/-- Raw line `{"distance_cm": 10.0, "rain_analog": 100,
"float_status": 0}`: clean, non-emergency. -/
def rawClean : RawMap :=
  ⟨.fval 10, .absent, .ival 100, .absent, .ival 0, .absent⟩

/-- Witness for C1: on `rawEmergency` — whose normalization reports
hard errors on distance and rain — with the classifier disabled, the
override still fires. -/
theorem emergency_override_spec_witness :
    ((normalize_sensor_payload rawEmergency).errors = ["missing_distance", "missing_rain"] ∧
      (normalize_sensor_payload rawEmergency).payload.float_status = 1) ∧
    Except.map
        (fun res : PipelineResult => (res.outcome.classifier_called, res.outcome.risk,
          res.outcome.prob, res.outcome.err))
        (process_sensor_data predictUnavailable llmDown sendOk dbOk rawEmergency)
      = Except.ok (false, some 2, some 1, some "emergency_override") := by
  obtain ⟨res, heq, hc, hr, hp, he, -, -⟩ :=
    emergency_override_spec predictUnavailable llmDown sendOk dbOk rawEmergency (by decide)
  exact ⟨by decide, by rw [heq]; simp [Except.map, hc, hr, hp, he]⟩

/-- Witness for C5: on `rawClean` with the classifier raising
"model unavailable", the pipeline records the inference error and
persists the normalized fields with risk and probability unset. -/
theorem classifier_failure_outcome_witness :
    predict_risk_safe predictUnavailable (normalize_sensor_payload rawClean).payload
        = (none, none, some "model unavailable") ∧
    Except.map
        (fun res : PipelineResult => (res.outcome.risk, res.outcome.prob, res.outcome.err,
          res.outcome.record.predicted_risk, res.outcome.record.risk_probability,
          res.outcome.record.distance_cm, res.outcome.record.rain_analog,
          res.outcome.record.float_status))
        (process_sensor_data predictUnavailable llmDown sendOk dbOk rawClean)
      = Except.ok (none, none, some "model unavailable", none, none, 10, 100, 0) := by
  obtain ⟨h0, res, heq, -, hr, hp, he, hrec⟩ :=
    classifier_failure_outcome predictUnavailable llmDown sendOk dbOk rawClean
      "model unavailable" rfl (by decide) (by decide)
  refine ⟨h0, ?_⟩
  rw [heq]
  have hpay : (normalize_sensor_payload rawClean).payload = ⟨10, 100, 0⟩ := by decide
  simp only [Except.map, hr, hp, he, hrec, hpay]

/-! ## Best-effort actuation write (`backend/serial_reader.py`) -/

/-- The fields of the `serial_reader` status dict that `send_alert`
touches. -/
structure SerialStatus where
  connected : Bool
  port : Option String
  last_error : Option String
  deriving DecidableEq, Repr

/-- `send_alert` (source `backend/serial_reader.py`): `connection` is
the result of `get_serial_connection()` (`none` when no connection is
currently available); `write` is `connection.write` on the
newline-terminated command, with `Except.error e` a raised write
failure.  The returned `Bool` records whether a write was attempted.
An `Except.error` result would mean an exception propagated to the
caller; the inner failure continuation instead records the error in the
status (`_set_status(last_error=...)`) and returns, mirroring the
source's `except` handler. -/
def send_alert (connection : Option Unit) (write : String → Except String Unit)
    (st : SerialStatus) (command : String) : Except String (SerialStatus × Bool) :=
  match connection with
  | none => .ok (st, false)
  | some _ =>
    match write (command ++ "\n") with
    | .ok _ => .ok (st, true)
    | .error e => .ok ({ st with last_error := some e }, true)

/-- C9: for every command, when no serial connection is available
`send_alert` silently drops the write — it returns at once, attempting
no write, raising nothing, and leaving the status untouched; when a
write is attempted and fails, the failure is recorded in the status's
`last_error` and does not propagate; and in every case the call returns
normally. -/
theorem send_alert_best_effort :
    (∀ (write : String → Except String Unit) (st : SerialStatus) (command : String),
      send_alert none write st command = .ok (st, false)) ∧
    (∀ (write : String → Except String Unit) (st : SerialStatus) (command : String)
      (e : String), write (command ++ "\n") = .error e →
      send_alert (some ()) write st command
        = .ok ({ st with last_error := some e }, true)) ∧
    (∀ (connection : Option Unit) (write : String → Except String Unit)
      (st : SerialStatus) (command : String),
      ∃ st2 b, send_alert connection write st command = .ok (st2, b)) := by
  refine ⟨fun _ _ _ => rfl, fun w st c e h => by unfold send_alert; rw [h], ?_⟩
  intro connection w st c
  rcases connection with _ | u
  · exact ⟨st, false, rfl⟩
  · unfold send_alert
    rcases w (c ++ "\n") with e | v
    · exact ⟨_, _, rfl⟩
    · exact ⟨_, _, rfl⟩

/-- A serial write that always raises. -/
def writeBroken : String → Except String Unit := fun _ => .error "write failed"

/-- Witness for C9: concrete no-connection drop and concrete recorded
write failure. -/
theorem send_alert_best_effort_witness :
    send_alert none writeBroken ⟨false, none, none⟩ "ALERT_ON"
        = .ok (⟨false, none, none⟩, false) ∧
      send_alert (some ()) writeBroken ⟨true, some "COM3", none⟩ "ALERT_ON"
        = .ok (⟨true, some "COM3", some "write failed"⟩, true) :=
  ⟨send_alert_best_effort.1 writeBroken ⟨false, none, none⟩ "ALERT_ON",
    send_alert_best_effort.2.1 writeBroken ⟨true, some "COM3", none⟩ "ALERT_ON"
      "write failed" rfl⟩
